import Mathlib

/-!
Verification of the adaptive, rate-limited load-testing engine of the
APITester repository (src/utils/concurrencyutil.py and the ramp-search
driver in src/utils/requestsutil.py) against its natural-language
specification.

The Python classes are shallowly embedded as Lean structures holding the
mutable attributes, and the methods as pure state-transformer functions.
Wall-clock reads (time.time()) become explicit rational `now` parameters;
time.sleep(d) is modelled as advancing the clock by exactly d.  Python
floats are modelled as exact rationals, Python ints as Int or Nat.
-/

namespace APITester

/-! ## RateLimiter (src/utils/concurrencyutil.py, lines 17-279)

One structure per instance; field names follow the attributes set in
`__init__` (lines 22-53). -/

structure RLState where
  rate : Int
  time_unit : Rat
  mode : String
  interval : Rat
  last_request_time : Rat
  capacity : Rat
  tokens : Rat
  last_token_time : Rat
  request_count : Nat
  rejected_count : Nat
  start_time : Rat
  request_timestamps : List Rat
  wait_times : List Rat
  window_size : Rat
  window_requests : List Rat
deriving Repr, DecidableEq

namespace RateLimiter

/-- Constructor `RateLimiter.__init__` (lines 22-53): `burst_capacity`
defaults to `rate`; the token bucket starts full; `interval` is
`time_unit / rate` when `rate > 0`, else 0. -/
def init (rate : Int) (time_unit : Rat) (mode : String)
    (burst_capacity : Option Int) (now : Rat) : RLState :=
  { rate := rate
    time_unit := time_unit
    mode := mode
    interval := if rate > 0 then time_unit / rate else 0
    last_request_time := 0
    capacity := (burst_capacity.getD rate : Int)
    tokens := (burst_capacity.getD rate : Int)
    last_token_time := now
    request_count := 0
    rejected_count := 0
    start_time := now
    request_timestamps := []
    wait_times := []
    window_size := 1
    window_requests := [] }

/-- `RateLimiter._add_tokens` (lines 55-63): refill the bucket by
`elapsed * (capacity / time_unit)`, capped at `capacity`; a no-op unless
time has advanced (`elapsed > 0`). -/
def add_tokens (s : RLState) (now : Rat) : RLState :=
  if now - s.last_token_time > 0 then
    { s with
      tokens := min s.capacity
        (s.tokens + (now - s.last_token_time) * (s.capacity / s.time_unit))
      last_token_time := now }
  else s

/-- `RateLimiter._update_sliding_window` (lines 130-134): drop entries
older than `window_size`, then append the new timestamp. -/
def update_sliding_window (s : RLState) (current_time : Rat) : RLState :=
  { s with window_requests :=
      (s.window_requests.filter (fun ts => current_time - ts ≤ s.window_size))
        ++ [current_time] }

/-- `RateLimiter._cleanup_old_data` (lines 136-143): keep only the last
1000 request timestamps and wait-time samples. -/
def cleanup_old_data (s : RLState) : RLState :=
  let stamps := if s.request_timestamps.length > 1000 then
      s.request_timestamps.drop (s.request_timestamps.length - 1000)
    else s.request_timestamps
  let waits := if s.wait_times.length > 1000 then
      s.wait_times.drop (s.wait_times.length - 1000)
    else s.wait_times
  { s with request_timestamps := stamps, wait_times := waits }

/-- Shared tail of `RateLimiter.wait` (lines 116-128): count the grant,
record its timestamp and wait latency, update the sliding window, prune
old data. -/
def record_request (s : RLState) (start_wait_time current_time : Rat) : RLState :=
  let s := { s with
    request_count := s.request_count + 1
    request_timestamps := s.request_timestamps ++ [current_time]
    wait_times := s.wait_times ++ [current_time - start_wait_time] }
  cleanup_old_data (update_sliding_window s current_time)

/-- Python `timeout is not None and wait_time > timeout` (lines 85, 105). -/
def timeoutExceeded (timeout : Option Rat) (wait_time : Rat) : Bool :=
  match timeout with
  | none => false
  | some t => wait_time > t

/-- The fixed-mode `wait_time = max(0, interval - elapsed_since_last)`
of lines 80-82. -/
def fixed_wait_time (s : RLState) (now : Rat) : Rat :=
  max 0 (s.interval - (now - s.last_request_time))

/-- The fixed-interval branch of `RateLimiter.wait` (lines 78-93). -/
def wait_fixed (s : RLState) (now : Rat) (timeout : Option Rat) : RLState × Bool × Rat :=
  if timeoutExceeded timeout (fixed_wait_time s now) then
    ({ s with rejected_count := s.rejected_count + 1 }, false, now)
  else if fixed_wait_time s now > 0 then
    (record_request { s with last_request_time := now + fixed_wait_time s now }
      now (now + fixed_wait_time s now), true, now + fixed_wait_time s now)
  else
    (record_request { s with last_request_time := now } now now, true, now)

/-- The token-bucket `wait_time = (1 - tokens) * (time_unit / capacity)`
of line 102, computed on the state after the first refill. -/
def token_wait_time (s : RLState) : Rat :=
  (1 - s.tokens) * (s.time_unit / s.capacity)

/-- The token-bucket branch of `RateLimiter.wait` (lines 95-114): refill,
then either grant immediately, reject on timeout, or sleep for the
computed wait time, refill again and grant. -/
def wait_token_bucket (s : RLState) (now : Rat) (timeout : Option Rat) :
    RLState × Bool × Rat :=
  if (add_tokens s now).tokens < 1 then
    if timeoutExceeded timeout (token_wait_time (add_tokens s now)) then
      ({ add_tokens s now with
         rejected_count := (add_tokens s now).rejected_count + 1 }, false, now)
    else
      (record_request
        { add_tokens (add_tokens s now) (now + token_wait_time (add_tokens s now)) with
          tokens :=
            (add_tokens (add_tokens s now)
              (now + token_wait_time (add_tokens s now))).tokens - 1 }
        now (now + token_wait_time (add_tokens s now)),
        true, now + token_wait_time (add_tokens s now))
  else
    (record_request { add_tokens s now with tokens := (add_tokens s now).tokens - 1 }
      now now, true, now)

/-- `RateLimiter.wait` (lines 65-128).  `now` is the clock at entry
(`start_wait_time`); sleeping for `d` is modelled as the next clock read
returning exactly `now + d`.  Returns the new state, whether a permit was
granted (`True` in the source), and the clock at return.  A mode string
other than the two known ones falls through both branches and records
the grant unconditionally. -/
def wait (s : RLState) (now : Rat) (timeout : Option Rat) : RLState × Bool × Rat :=
  if s.mode = "fixed" then wait_fixed s now timeout
  else if s.mode = "token_bucket" then wait_token_bucket s now timeout
  else (record_request s now now, true, now)

/-- `RateLimiter.update_rate` (lines 267-279): set `rate` and `capacity`
to `new_rate`, recompute `interval`, then call `_add_tokens`. -/
def update_rate (s : RLState) (new_rate : Int) (now : Rat) : RLState :=
  add_tokens
    { s with
      rate := new_rate
      capacity := (new_rate : Int)
      interval := if new_rate > 0 then s.time_unit / new_rate else 0 } now

/-- Python `statistics.mean` on a nonempty list (sum divided by length). -/
def pymean (l : List Rat) : Rat := l.sum / l.length

/-- `RateLimiter._calculate_percentile` (lines 197-218): sort the samples,
take index `int(n * percentile / 100)` (floor, since all quantities are
nonnegative and exactly representable), clamped to `n - 1`.  Python
`sorted` is embedded as insertion sort, which produces the same list for
a total order. -/
def calculate_percentile (data : List Rat) (percentile : Nat) : Rat :=
  if data.isEmpty then 0
  else
    (data.insertionSort (· ≤ ·)).getD
      (if (data.insertionSort (· ≤ ·)).length * percentile / 100 ≥
          (data.insertionSort (· ≤ ·)).length then
        (data.insertionSort (· ≤ ·)).length - 1
      else (data.insertionSort (· ≤ ·)).length * percentile / 100) 0

/-- The second, effective definition of `RateLimiter.get_current_tps`
(lines 227-245); in Python the later definition in the class body
shadows the earlier sliding-window one. -/
def get_current_tps (s : RLState) (now : Rat) : Rat :=
  if s.request_timestamps.length < 2 then 0
  else
    let recent_requests := s.request_timestamps.filter (fun ts => now - ts ≤ 1)
    if recent_requests.length < 2 then 0
    else (recent_requests.length : Rat) / max 1 (now - recent_requests.headD 0)

/-- The first definition of `RateLimiter.get_current_tps` (lines 145-165),
shadowed by the later duplicate definition in the same class body. -/
def get_current_tps_first (s : RLState) (now : Rat) : Rat :=
  if s.window_requests.length < 2 then 0
  else
    let window_start := now - s.window_size
    let valid_requests := s.window_requests.filter (fun ts => ts ≥ window_start)
    if valid_requests.length < 2 then 0
    else (valid_requests.length : Rat) / max (1/1000) (now - valid_requests.headD 0)

/-- A Python-dict value in a statistics or report dictionary. -/
inductive RVal where
  | s (v : String)
  | n (v : Nat)
  | q (v : Rat)
  | b (v : Bool)
  | oq (v : Option Rat)
deriving Repr, DecidableEq

/-- The second, effective definition of `RateLimiter.get_stats`
(lines 247-265): in Python the later `def get_stats` in the class body
replaces the earlier detailed one, so this is what callers get. -/
def get_stats (s : RLState) (now : Rat) : List (String × RVal) :=
  let total_time := now - s.start_time
  let avg_tps := if total_time > 0 then (s.request_count : Rat) / total_time else 0
  [("total_requests", .n s.request_count),
   ("total_time", .q total_time),
   ("average_tps", .q avg_tps),
   ("current_tps", .q (get_current_tps s now)),
   ("configured_rate", .q ((s.rate : Rat) / s.time_unit)),
   ("mode", .s s.mode)]

/-- The first definition of `RateLimiter.get_stats` (lines 167-195), with
rejected count and p95/p99 wait-time fields; it is shadowed by the later
duplicate definition and therefore unreachable. -/
def get_stats_first (s : RLState) (now : Rat) : List (String × RVal) :=
  let total_time := now - s.start_time
  let avg_tps := if total_time > 0 then (s.request_count : Rat) / total_time else 0
  let avg_wait_time := if s.wait_times.isEmpty then 0 else pymean s.wait_times
  let p95_wait_time := if s.wait_times.isEmpty then 0 else calculate_percentile s.wait_times 95
  let p99_wait_time := if s.wait_times.isEmpty then 0 else calculate_percentile s.wait_times 99
  [("total_requests", .n s.request_count),
   ("rejected_requests", .n s.rejected_count),
   ("total_time", .q total_time),
   ("average_tps", .q avg_tps),
   ("current_tps", .q (get_current_tps_first s now)),
   ("configured_rate", .q ((s.rate : Rat) / s.time_unit)),
   ("mode", .s s.mode),
   ("average_wait_time_ms", .q (avg_wait_time * 1000)),
   ("p95_wait_time_ms", .q (p95_wait_time * 1000)),
   ("p99_wait_time_ms", .q (p99_wait_time * 1000)),
   ("window_size", .q s.window_size)]

end RateLimiter

/-! ## ConcurrentExecutor (src/utils/concurrencyutil.py, lines 282-655)

One structure per instance.  The attached rate limiter is represented by
the flag `has_rate_limiter` (whether `self.rate_limiter` is not None);
the verdict of its `wait()` call is an explicit input of the worker
wrapper, since `wait` is a separately modelled component. -/

structure ExecState where
  max_workers : Int
  has_rate_limiter : Bool
  active_tasks : Int
  task_times : List Rat
  task_errors : Nat
  total_tasks : Nat
  successful_tasks : Nat
  error_types : List (String × Nat)
  adaptive_concurrency : Bool
  target_tps : Option Rat
  min_concurrency : Int
  max_concurrency : Int
  concurrency_adjustment_interval : Rat
  last_adjustment_time : Rat
  concurrency_history : List (Int × Rat)
  error_threshold : Rat
deriving Repr, DecidableEq

/-- Python `self.error_types[t] = self.error_types.get(t, 0) + 1`
(line 372) on the association-list model of the counter dict. -/
def bumpCount (m : List (String × Nat)) (key : String) : List (String × Nat) :=
  match m.lookup key with
  | some n => m.map (fun kv => if kv.1 = key then (kv.1, n + 1) else kv)
  | none => m ++ [(key, 1)]

namespace ConcurrentExecutor

/-- Constructor `ConcurrentExecutor.__init__` (lines 287-328). -/
def init (max_workers : Int) (has_rate_limiter : Bool) (now : Rat) : ExecState :=
  { max_workers := max_workers
    has_rate_limiter := has_rate_limiter
    active_tasks := 0
    task_times := []
    task_errors := 0
    total_tasks := 0
    successful_tasks := 0
    error_types := []
    adaptive_concurrency := false
    target_tps := none
    min_concurrency := 1
    max_concurrency := max_workers
    concurrency_adjustment_interval := 2
    last_adjustment_time := now
    concurrency_history := [(max_workers, now)]
    error_threshold := 1/20 }

/-- `ConcurrentExecutor.get_current_tps` (lines 534-551): estimate TPS as
`active_tasks / mean(task_times)` once at least two samples exist. -/
def get_current_tps (s : ExecState) : Rat :=
  if s.task_times.length < 2 then 0
  else
    let avg_task_time := if s.task_times.isEmpty then 0 else RateLimiter.pymean s.task_times
    if avg_task_time > 0 then (s.active_tasks : Rat) / avg_task_time else 0

/-- The local `error_rate` computed by `_adjust_concurrency`
(lines 407-410): `task_errors / total_tasks`, 0 when no task has run. -/
def exec_error_rate (s : ExecState) : Rat :=
  if s.total_tasks > 0 then (s.task_errors : Rat) / s.total_tasks else 0

/-- The three resize branches of `_adjust_concurrency` (lines 412-446).
Shrink on a high error rate (only when the clamped value differs from
the current one), else grow on low TPS (only when the last history entry
is more than 10 seconds old), else shrink on high TPS (unconditionally
recording history).  Every resize clamps with
`max(min_concurrency, current - 1)` or `min(max_concurrency, current + 1)`
and appends `(new_workers, now)` to the history. -/
def adjust_resize (s : ExecState) (now : Rat) : ExecState :=
  if exec_error_rate s > s.error_threshold then
    if max s.min_concurrency (s.max_workers - 1) ≠ s.max_workers then
      { s with
        max_workers := max s.min_concurrency (s.max_workers - 1)
        concurrency_history :=
          s.concurrency_history ++ [(max s.min_concurrency (s.max_workers - 1), now)] }
    else s
  else if get_current_tps s < s.target_tps.getD 0 * (9/10) ∧ s.max_workers < s.max_concurrency then
    match s.concurrency_history.getLast? with
    | some last =>
        if now - last.2 > 10 then
          { s with
            max_workers := min s.max_concurrency (s.max_workers + 1)
            concurrency_history :=
              s.concurrency_history ++ [(min s.max_concurrency (s.max_workers + 1), now)] }
        else s
    | none => s
  else if get_current_tps s > s.target_tps.getD 0 * (6/5) then
    { s with
      max_workers := max s.min_concurrency (s.max_workers - 1)
      concurrency_history :=
        s.concurrency_history ++ [(max s.min_concurrency (s.max_workers - 1), now)] }
  else s

/-- `ConcurrentExecutor._adjust_concurrency` (lines 392-452), the
controller tick.  The resize branches are guarded by the adaptive flag,
a configured target, and the adjustment interval; afterwards the history
is truncated to its last 100 entries and `last_adjustment_time` is set
to `now`. -/
def adjust_concurrency (s : ExecState) (now : Rat) : ExecState :=
  if !s.adaptive_concurrency || s.target_tps.isNone then s
  else if now - s.last_adjustment_time < s.concurrency_adjustment_interval then s
  else
    { adjust_resize s now with
      concurrency_history :=
        if (adjust_resize s now).concurrency_history.length > 100 then
          (adjust_resize s now).concurrency_history.drop
            ((adjust_resize s now).concurrency_history.length - 100)
        else (adjust_resize s now).concurrency_history
      last_adjustment_time := now }

/-- `ConcurrentExecutor.submit` (lines 454-470): increments both
`active_tasks` and `total_tasks` before handing the wrapped task to the
thread pool. -/
def submit (s : ExecState) : ExecState :=
  { s with active_tasks := s.active_tasks + 1, total_tasks := s.total_tasks + 1 }

/-- `ConcurrentExecutor._worker_wrapper` (lines 339-390), run once per
task on a pool thread.  `wait_result` is the Bool returned by the
attached rate limiter when one is present (the source calls
`self.rate_limiter.wait()` with no timeout); `func_ok` is whether the
task callable returns normally and `func_error_type` the name of the
exception type it raises otherwise.  `t_start`/`t_end` are the clock at
entry and at the finally block.  Returns the new state and whether the
task callable was actually executed. -/
def worker_wrapper (s : ExecState) (wait_result : Bool) (func_ok : Bool)
    (func_error_type : String) (t_start t_end : Rat) : ExecState × Bool :=
  -- try: with self.tasks_lock: self.active_tasks += 1
  let s := { s with active_tasks := s.active_tasks + 1 }
  -- rate limiting, execution, and the except-branch bookkeeping
  let raised : Option String :=
    if s.has_rate_limiter ∧ !wait_result then some "Exception"
    else if func_ok then none
    else some func_error_type
  let executed : Bool := !(s.has_rate_limiter ∧ !wait_result)
  let s :=
    match raised with
    | none => { s with successful_tasks := s.successful_tasks + 1 }
    | some ty =>
        { s with task_errors := s.task_errors + 1
                 error_types := bumpCount s.error_types ty }
  -- finally: decrement active, count the task, record its duration
  let task_times := s.task_times ++ [t_end - t_start]
  let s := { s with
    active_tasks := s.active_tasks - 1
    total_tasks := s.total_tasks + 1
    task_times := if task_times.length > 1000 then task_times.drop 1 else task_times }
  (if s.adaptive_concurrency then adjust_concurrency s t_end else s, executed)

/-- The exit condition of the `ConcurrentExecutor.wait_completion` polling
loop (lines 509-514): the loop breaks exactly when `active_tasks == 0`,
otherwise it sleeps and polls again. -/
def wait_completion_exits (s : ExecState) : Bool :=
  s.active_tasks == 0

/-- `ConcurrentExecutor.enable_adaptive_concurrency` (lines 603-624). -/
def enable_adaptive_concurrency (s : ExecState) (target_tps : Rat)
    (min_concurrency : Int) (max_concurrency : Option Int)
    (error_threshold : Rat) (adjustment_interval : Rat) (now : Rat) : ExecState :=
  { s with
    adaptive_concurrency := true
    target_tps := some target_tps
    min_concurrency := max 1 min_concurrency
    max_concurrency := max_concurrency.getD s.max_workers
    error_threshold := error_threshold
    concurrency_adjustment_interval := adjustment_interval
    last_adjustment_time := now }

end ConcurrentExecutor

/-! ## Ramp search engine (src/utils/requestsutil.py, lines 375-695)

`_run_concurrent_tests` drives live HTTP traffic on worker threads, so a
trial is modelled by an oracle `Nat → TrialData` giving, for each tested
level, the fields of its result dict that the ramp loop reads; the dict
additionally carries the level itself under the key `concurrency`
(line 354 of the source), which `mkTrial` records. -/

structure Trial where
  concurrency : Nat
  tps : Rat
  avg_response_time : Rat
  error_rate : Rat
deriving Repr, DecidableEq

structure TrialData where
  tps : Rat
  avg_response_time : Rat
  error_rate : Rat
deriving Repr, DecidableEq

/-- Packaging of one `_run_concurrent_tests` result dict: the level under
test plus the measured fields supplied by the oracle. -/
def mkTrial (c : Nat) (d : TrialData) : Trial :=
  { concurrency := c, tps := d.tps, avg_response_time := d.avg_response_time,
    error_rate := d.error_rate }

/-- The loop-carried variables of `find_max_concurrency` (lines 397-458):
the accumulated `self.results`, `best_tps` (initially 0),
`best_avg_response_time` (initially `float` infinity, modelled as
`none`), and `best_concurrency` (initially `start_concurrency`). -/
structure RampState where
  results : List Trial
  best_tps : Rat
  best_avg_response_time : Option Rat
  best_concurrency : Nat
deriving Repr, DecidableEq

/-- Comparison `result.avg_response_time < best_avg_response_time`
(line 436) where the right side may still be the initial infinity. -/
def artBetter (x : Rat) (best : Option Rat) : Bool :=
  match best with
  | none => true
  | some b => x < b

/-- Lines 432-440 of the loop body: append the trial to `self.results`
and update the best level when the trial improves on `best_tps` (or ties
it with a strictly lower average response time) — before any threshold
check. -/
def rampUpdateBest (s : RampState) (t : Trial) : RampState :=
  if t.tps > s.best_tps ∨
      (t.tps = s.best_tps ∧ artBetter t.avg_response_time s.best_avg_response_time) then
    { results := s.results ++ [t], best_tps := t.tps,
      best_avg_response_time := some t.avg_response_time,
      best_concurrency := t.concurrency }
  else { s with results := s.results ++ [t] }

/-- Lines 446-450: under the binary strategy, when the error threshold
was exceeded and the previous trial exists and was within the error
threshold, fall back to the previous trial's concurrency. -/
def rampFallback (error_threshold : Rat) (binary : Bool) (s : RampState) : RampState :=
  if binary ∧ s.results.length > 1 then
    match s.results.get? (s.results.length - 2) with
    | some prev =>
        if prev.error_rate ≤ error_threshold then
          { s with best_concurrency := prev.concurrency }
        else s
    | none => s
  else s

/-- One iteration of the `find_max_concurrency` loop body
(lines 424-458): append and update best, then test the error-rate
threshold (with the binary fallback) and the response-time threshold.
Returns the new state and whether the loop continues. -/
def rampStep (error_threshold response_time_threshold : Rat) (binary : Bool)
    (s : RampState) (t : Trial) : RampState × Bool :=
  if t.error_rate > error_threshold then
    (rampFallback error_threshold binary (rampUpdateBest s t), false)
  else if t.avg_response_time > response_time_threshold then
    (rampUpdateBest s t, false)
  else (rampUpdateBest s t, true)

/-- The `for concurrency in concurrency_sequence` loop of
`find_max_concurrency` (the stop event is never set during an
uninterrupted run, so it is not modelled). -/
def rampLoop (error_threshold response_time_threshold : Rat) (binary : Bool)
    (oracle : Nat → TrialData) : List Nat → RampState → RampState
  | [], s => s
  | c :: rest, s =>
      if (rampStep error_threshold response_time_threshold binary s (mkTrial c (oracle c))).2 then
        rampLoop error_threshold response_time_threshold binary oracle rest
          (rampStep error_threshold response_time_threshold binary s (mkTrial c (oracle c))).1
      else (rampStep error_threshold response_time_threshold binary s (mkTrial c (oracle c))).1

/-- Python `range(start, stop, step)` for a positive `step`. -/
def pyrange (start stop step : Nat) : List Nat :=
  (List.range ((stop - start + step - 1) / step)).map (fun i => start + i * step)

/-- The exponential-strategy generation loop (lines 405-413):
`current = int(current * 1.5) + step` is `3 * current / 2 + step` on
nonnegative ints.  The Python while-loop is modelled with fuel; `none`
means the fuel ran out, i.e. within that budget the loop has not
terminated. -/
def exponential_sequence_loop (max_value step : Nat) : Nat → Nat → Option (List Nat)
  | 0, current => if current ≤ max_value then none else some []
  | fuel + 1, current =>
      if current ≤ max_value then
        (exponential_sequence_loop max_value step fuel (3 * current / 2 + step)).map
          (fun seq => current :: seq)
      else some []

/-- The `while current < end` loop of `_generate_binary_search_sequence`
(lines 523-527): double `current` (capped at `end`), appending values not
yet present.  Fuel-based; `none` means the loop has not terminated
within the fuel budget. -/
def binary_search_loop (end_value : Nat) : Nat → Nat → List Nat → Option (List Nat)
  | 0, current, seq => if current < end_value then none else some seq
  | fuel + 1, current, seq =>
      if current < end_value then
        let current' := min (current * 2) end_value
        let seq' := if current' ∈ seq then seq else seq ++ [current']
        binary_search_loop end_value fuel current' seq'
      else some seq

/-- `APIPerformanceTester._generate_binary_search_sequence`
(lines 496-532): seed with start, midpoint and end, run the doubling
loop, then `sorted(list(set(sequence)))` (embedded as sort of dedup). -/
def generate_binary_search_sequence (fuel : Nat) (start end_value : Nat) :
    Option (List Nat) :=
  if start = end_value then some [start]
  else
    match binary_search_loop end_value fuel start
        [start, (start + end_value) / 2, end_value] with
    | some seq => some (seq.dedup.insertionSort (· ≤ ·))
    | none => none

/-- Outcome of the sequence-generation prologue shared by
`find_max_concurrency` (lines 402-418) and `find_max_tps`
(lines 600-616): a sequence, a raised ValueError (unsupported strategy
name, line 418, or a zero step passed to `range`), or a loop that never
terminates. -/
inductive SeqGen where
  | ok (seq : List Nat)
  | raised
  | hang
deriving Repr, DecidableEq

/-- Strategy dispatch of `find_max_concurrency` lines 402-418. -/
def generate_sequence (fuel : Nat) (strategy : String)
    (start_value max_value step : Nat) : SeqGen :=
  if strategy = "linear" then
    if step = 0 then .raised else .ok (pyrange start_value (max_value + 1) step)
  else if strategy = "exponential" then
    match exponential_sequence_loop max_value step fuel start_value with
    | some seq => .ok (seq.filter (fun c => c ≤ max_value))
    | none => .hang
  else if strategy = "binary" then
    match generate_binary_search_sequence fuel start_value max_value with
    | some seq => .ok seq
    | none => .hang
  else .raised

/-- A Python-dict value in a ramp report. -/
inductive ReportVal where
  | s (v : String)
  | n (v : Nat)
  | q (v : Rat)
  | b (v : Bool)
  | oq (v : Option Rat)
  | trials (v : List Trial)
deriving Repr, DecidableEq

/-- Environment-dependent strings recorded in a report (`test_id` and the
two formatted wall-clock strings). -/
structure ReportEnv where
  test_id : String
  start_time : String
  end_time : String
deriving Repr, DecidableEq

/-- `APIPerformanceTester._generate_interrupted_report` (lines 534-567):
over whatever trials completed, pick `max(results, key=tps)` (the first
trial attaining the maximum, per Python max) with no threshold
filtering; with no results, `best_value` falls back to `start_value` and
`best_tps` to 0. -/
def generate_interrupted_report (results : List Trial) (test_type : String)
    (start_value max_value : Nat) (env : ReportEnv) : List (String × ReportVal) :=
  let best : Nat × Rat :=
    match results with
    | [] => (start_value, 0)
    | t :: ts =>
        let best_result := ts.foldl (fun acc r => if r.tps > acc.tps then r else acc) t
        (best_result.concurrency, best_result.tps)
  [("test_type", .s test_type),
   ("start_value", .n start_value),
   ("max_value", .n max_value),
   ("best_value", .n best.1),
   ("best_tps", .q best.2),
   ("interrupted", .b true),
   ("detailed_results", .trials results),
   ("test_id", .s env.test_id),
   ("message", .s "测试被中断或发生错误")]

/-- The report dict built by `find_max_concurrency` on the normal path
(lines 461-477). -/
def concurrency_scaling_report (start_concurrency max_concurrency : Nat)
    (best_concurrency : Nat) (best_tps : Rat) (best_avg_response_time : Option Rat)
    (error_threshold response_time_threshold : Rat) (step : Nat) (strategy : String)
    (duration : Rat) (results : List Trial) (env : ReportEnv) :
    List (String × ReportVal) :=
  [("test_type", .s "concurrency_scaling"),
   ("start_concurrency", .n start_concurrency),
   ("max_concurrency", .n max_concurrency),
   ("best_concurrency", .n best_concurrency),
   ("best_tps", .q best_tps),
   ("best_avg_response_time", .oq best_avg_response_time),
   ("error_threshold", .q error_threshold),
   ("response_time_threshold", .q response_time_threshold),
   ("step", .n step),
   ("scaling_strategy", .s strategy),
   ("duration_per_step", .q duration),
   ("detailed_results", .trials results),
   ("test_id", .s env.test_id),
   ("start_time", .s env.start_time),
   ("end_time", .s env.end_time)]

/-- The report dict built by `find_max_tps` on the normal path
(lines 661-676). -/
def tps_scaling_report (start_tps max_tps : Nat) (best_tps : Rat)
    (best_avg_response_time : Option Rat) (error_threshold response_time_threshold : Rat)
    (step : Nat) (strategy : String) (duration : Rat) (results : List Trial)
    (env : ReportEnv) : List (String × ReportVal) :=
  [("test_type", .s "tps_scaling"),
   ("start_tps", .n start_tps),
   ("max_tps", .n max_tps),
   ("best_tps", .q best_tps),
   ("best_avg_response_time", .oq best_avg_response_time),
   ("error_threshold", .q error_threshold),
   ("response_time_threshold", .q response_time_threshold),
   ("step", .n step),
   ("scaling_strategy", .s strategy),
   ("duration_per_step", .q duration),
   ("detailed_results", .trials results),
   ("test_id", .s env.test_id),
   ("start_time", .s env.start_time),
   ("end_time", .s env.end_time)]

/-- `APIPerformanceTester.find_max_concurrency` (lines 375-494).  The
whole body sits in a `try` whose `except Exception` handler converts any
raised error — including the ValueError for an unsupported strategy —
into `_generate_interrupted_report` (with `self.results` still empty,
since the raise precedes every trial).  `none` models a call that never
returns (a sequence-generation loop that does not terminate). -/
def find_max_concurrency (fuel : Nat) (oracle : Nat → TrialData)
    (start_concurrency max_concurrency step : Nat) (duration : Rat)
    (error_threshold response_time_threshold : Rat) (strategy : String)
    (env : ReportEnv) : Option (List (String × ReportVal)) :=
  match generate_sequence fuel strategy start_concurrency max_concurrency step with
  | .raised =>
      some (generate_interrupted_report [] "concurrency_scaling"
        start_concurrency max_concurrency env)
  | .hang => none
  | .ok seq =>
      let s0 : RampState :=
        { results := [], best_tps := 0, best_avg_response_time := none,
          best_concurrency := start_concurrency }
      let final := rampLoop error_threshold response_time_threshold
        (strategy = "binary") oracle seq s0
      some (concurrency_scaling_report start_concurrency max_concurrency
        final.best_concurrency final.best_tps final.best_avg_response_time
        error_threshold response_time_threshold step strategy duration
        final.results env)

/-! ## Auxiliary definitions for the theorems -/

/-- The best-level bookkeeping actually maintained by the ramp loop: the
best tps is attained by some completed trial and dominates every
completed trial, and the best concurrency is the level of some completed
trial — with no threshold filtering. -/
def RampInv (s : RampState) : Prop :=
  (∀ t ∈ s.results, t.tps ≤ s.best_tps) ∧
  (∃ t ∈ s.results, t.tps = s.best_tps) ∧
  (∃ t ∈ s.results, t.concurrency = s.best_concurrency)

/-- N tasks, each submitted via `submit` and then run to completion by a
successful `_worker_wrapper` invocation. -/
def run_tasks (s : ExecState) : Nat → ExecState
  | 0 => s
  | n + 1 =>
      run_tasks
        ((ConcurrentExecutor.worker_wrapper (ConcurrentExecutor.submit s) true true "" 0 0).1) n

/-- One worker-wrapper run whose task callable raises, taking 0.1s. -/
def failing_task (s : ExecState) : ExecState :=
  (ConcurrentExecutor.worker_wrapper s true false "Exception" 0 (1/10)).1

/-- An executor built with 10 workers, driven through two failing tasks
(error rate 2/2 = 100%), then switched to adaptive mode with bounds
[1, 5], then ticked once past the adjustment interval. -/
def c4_state : ExecState :=
  ConcurrentExecutor.adjust_concurrency
    (ConcurrentExecutor.enable_adaptive_concurrency
      (failing_task (failing_task (ConcurrentExecutor.init 10 false 0))) 100 1 (some 5)
      (1/20) 2 1) 4

/-- An executor with an attached rate limiter. -/
def c3_s0 : ExecState := ConcurrentExecutor.init 5 true 0

/-- A fresh token-bucket limiter at 10 permits/second (bucket full). -/
def c8_s0 : RLState := RateLimiter.init 10 1 "token_bucket" none 0

/-- The same limiter immediately after `update_rate(5)` at an unchanged
clock (zero elapsed time since the last refill). -/
def c8_s1 : RLState := RateLimiter.update_rate c8_s0 5 0

/-- Trial oracle for the ramp-search counterexamples: level 1 measures
1 tps with no errors; every other level measures 10 tps with a 100%
error rate. -/
def exOracle : Nat → TrialData :=
  fun c => if c = 1 then ⟨1, 100, 0⟩ else ⟨10, 100, 1⟩

/-- Fixed environment strings for concrete report computations. -/
def env0 : ReportEnv := ⟨"tid", "st", "et"⟩

/-! ## Helper lemmas -/

/-- The resize step only ever rewrites `max_workers` and the history. -/
theorem adjust_resize_shape (s : ExecState) (now : Rat) :
    ∃ w h, ConcurrentExecutor.adjust_resize s now =
      { s with max_workers := w, concurrency_history := h } := by
  unfold ConcurrentExecutor.adjust_resize
  repeat first
  | exact ⟨_, _, rfl⟩
  | split

/-- `_adjust_concurrency` only ever rewrites `max_workers`, the adjustment
history, and the last-adjustment timestamp. -/
theorem adjust_concurrency_shape (s : ExecState) (now : Rat) :
    ∃ w h la, ConcurrentExecutor.adjust_concurrency s now =
      { s with max_workers := w, concurrency_history := h, last_adjustment_time := la } := by
  unfold ConcurrentExecutor.adjust_concurrency
  obtain ⟨w, h, hs⟩ := adjust_resize_shape s now
  rw [hs]
  repeat first
  | exact ⟨_, _, _, rfl⟩
  | split

theorem adjust_concurrency_active (s : ExecState) (now : Rat) :
    (ConcurrentExecutor.adjust_concurrency s now).active_tasks = s.active_tasks := by
  obtain ⟨w, h, la, hs⟩ := adjust_concurrency_shape s now
  rw [hs]

theorem adjust_concurrency_errors (s : ExecState) (now : Rat) :
    (ConcurrentExecutor.adjust_concurrency s now).task_errors = s.task_errors ∧
    (ConcurrentExecutor.adjust_concurrency s now).error_types = s.error_types ∧
    (ConcurrentExecutor.adjust_concurrency s now).successful_tasks = s.successful_tasks := by
  obtain ⟨w, h, la, hs⟩ := adjust_concurrency_shape s now
  rw [hs]
  exact ⟨rfl, rfl, rfl⟩

theorem lookup_cons {β : Type} (a k : String) (v : β) (l : List (String × β)) :
    List.lookup a ((k, v) :: l) = if a == k then some v else List.lookup a l := by
  show (match a == k with | true => some v | false => List.lookup a l) = _
  cases a == k <;> rfl

theorem lookup_bump_of_some (m : List (String × Nat)) (key : String) (n : Nat)
    (h : m.lookup key = some n) :
    (m.map (fun kv => if kv.1 = key then (kv.1, n + 1) else kv)).lookup key = some (n + 1) := by
  induction m with
  | nil => simp [List.lookup] at h
  | cons kv rest ih =>
      obtain ⟨k, v⟩ := kv
      rw [List.map_cons]
      by_cases hk : k = key
      · subst hk
        rw [if_pos rfl, lookup_cons]
        simp
      · have hb : (key == k) = false := beq_eq_false_iff_ne.mpr (Ne.symm hk)
        rw [lookup_cons, hb] at h
        rw [if_neg hk, lookup_cons, hb]
        exact ih (by simpa using h)

theorem lookup_append_of_none (m : List (String × Nat)) (key : String)
    (h : m.lookup key = none) :
    (m ++ [(key, (1 : Nat))]).lookup key = some 1 := by
  induction m with
  | nil => simp [List.lookup]
  | cons kv rest ih =>
      obtain ⟨k, v⟩ := kv
      by_cases hk : k = key
      · subst hk
        rw [lookup_cons] at h
        simp at h
      · have hb : (key == k) = false := beq_eq_false_iff_ne.mpr (Ne.symm hk)
        rw [lookup_cons, hb] at h
        rw [List.cons_append, lookup_cons, hb]
        exact ih (by simpa using h)

theorem lookup_bumpCount (m : List (String × Nat)) (key : String) :
    (bumpCount m key).lookup key = some (((m.lookup key).getD 0) + 1) := by
  unfold bumpCount
  cases h : m.lookup key with
  | none => simpa [h] using lookup_append_of_none m key h
  | some n => simpa [h] using lookup_bump_of_some m key n h

/-- Insertion sort and merge sort agree on rational samples (both produce
the unique sorted permutation), so the embedding of Python `sorted` can
be compared against either. -/
theorem insertionSort_eq_mergeSort (l : List Rat) :
    l.insertionSort (· ≤ ·) = l.mergeSort (fun a b => decide (a ≤ b)) := by
  apply @List.eq_of_perm_of_sorted Rat (· ≤ ·)
  · exact (l.perm_insertionSort (· ≤ ·)).trans (l.mergeSort_perm _).symm
  · exact l.sorted_insertionSort (· ≤ ·)
  · have h := @List.sorted_mergeSort Rat (fun a b => decide (a ≤ b))
      (fun a b c hab hbc => by
        simp only [decide_eq_true_eq] at hab hbc ⊢
        exact le_trans hab hbc)
      (fun a b => by
        simp only [Bool.or_eq_true, decide_eq_true_eq]
        exact le_total a b) l
    simpa [List.Sorted, decide_eq_true_eq] using h

/-- When `current` is stuck at 0 and the end value is positive, the
doubling loop never terminates, whatever the fuel. -/
theorem binary_loop_stuck (end_value : Nat) (he : 0 < end_value) (fuel : Nat)
    (seq : List Nat) : binary_search_loop end_value fuel 0 seq = none := by
  induction fuel generalizing seq with
  | zero => simp [binary_search_loop, he]
  | succ n ih =>
      simp only [binary_search_loop, if_pos he, Nat.zero_mul]
      have hmin : min (0 * 2) end_value = 0 := by omega
      rw [hmin]
      split <;> exact ih _

/-- With `current ≥ 1` the doubling loop advances by at least one per
step, so fuel `end_value - current` suffices. -/
theorem binary_loop_terminates (end_value : Nat) (fuel : Nat) :
    ∀ current seq, 1 ≤ current → end_value ≤ current + fuel →
      (binary_search_loop end_value fuel current seq).isSome := by
  induction fuel with
  | zero =>
      intro current seq h1 h2
      have : ¬ current < end_value := by omega
      simp [binary_search_loop, this]
  | succ n ih =>
      intro current seq h1 h2
      by_cases hlt : current < end_value
      · have hstep : current + 1 ≤ min (current * 2) end_value := by omega
        simp only [binary_search_loop, if_pos hlt]
        split
        · exact ih _ _ (by omega) (by omega)
        · exact ih _ _ (by omega) (by omega)
      · simp [binary_search_loop, hlt]

/-- Recording a granted request touches only the counters and sample
lists, not the bucket or the rejection counter. -/
theorem record_request_fields (s : RLState) (a b : Rat) :
    (RateLimiter.record_request s a b).tokens = s.tokens ∧
    (RateLimiter.record_request s a b).capacity = s.capacity ∧
    (RateLimiter.record_request s a b).rejected_count = s.rejected_count := by
  exact ⟨rfl, rfl, rfl⟩

/-- Refilling the bucket touches only `tokens` and `last_token_time`. -/
theorem add_tokens_fields (s : RLState) (now : Rat) :
    (RateLimiter.add_tokens s now).capacity = s.capacity ∧
    (RateLimiter.add_tokens s now).rejected_count = s.rejected_count ∧
    (RateLimiter.add_tokens s now).time_unit = s.time_unit ∧
    (RateLimiter.add_tokens s now).mode = s.mode := by
  unfold RateLimiter.add_tokens
  split
  · exact ⟨rfl, rfl, rfl, rfl⟩
  · exact ⟨rfl, rfl, rfl, rfl⟩

/-- Whenever `RateLimiter.wait` returns `False`, the call has incremented
`rejected_count` by exactly one (lines 85-87 and 104-107). -/
theorem wait_false_rejected (s : RLState) (now : Rat) (timeout : Option Rat)
    (h : (RateLimiter.wait s now timeout).2.1 = false) :
    ((RateLimiter.wait s now timeout).1).rejected_count = s.rejected_count + 1 := by
  unfold RateLimiter.wait at h ⊢
  by_cases h1 : s.mode = "fixed"
  · rw [if_pos h1] at h ⊢
    unfold RateLimiter.wait_fixed at h ⊢
    by_cases h3 : RateLimiter.timeoutExceeded timeout (RateLimiter.fixed_wait_time s now) = true
    · rw [if_pos h3]
    · rw [if_neg h3] at h
      exfalso
      revert h
      split <;> simp
  · rw [if_neg h1] at h ⊢
    by_cases h2 : s.mode = "token_bucket"
    · rw [if_pos h2] at h ⊢
      unfold RateLimiter.wait_token_bucket at h ⊢
      by_cases h3 : (RateLimiter.add_tokens s now).tokens < 1
      · rw [if_pos h3] at h ⊢
        by_cases h4 : RateLimiter.timeoutExceeded timeout
            (RateLimiter.token_wait_time (RateLimiter.add_tokens s now)) = true
        · rw [if_pos h4]
          show (RateLimiter.add_tokens s now).rejected_count + 1 = s.rejected_count + 1
          rw [(add_tokens_fields s now).2.1]
        · rw [if_neg h4] at h
          simp at h
      · rw [if_neg h3] at h
        simp at h
    · rw [if_neg h2] at h
      simp at h

/-- The ramp-loop best-update preserves the invariant (and establishes it
from the initial state when the trial has a nonnegative tps). -/
theorem rampUpdateBest_inv (s : RampState) (t : Trial)
    (h : RampInv s ∨ (s.results = [] ∧ s.best_tps = 0 ∧ s.best_avg_response_time = none))
    (ht : 0 ≤ t.tps) : RampInv (rampUpdateBest s t) := by
  unfold rampUpdateBest
  by_cases hcond : t.tps > s.best_tps ∨
      (t.tps = s.best_tps ∧ artBetter t.avg_response_time s.best_avg_response_time)
  · rw [if_pos hcond]
    have hbest : s.best_tps ≤ t.tps := by
      rcases hcond with h' | ⟨h', _⟩
      · exact le_of_lt h'
      · exact le_of_eq h'.symm
    refine ⟨?_, ⟨t, by simp, rfl⟩, ⟨t, by simp, rfl⟩⟩
    intro u hu
    rcases List.mem_append.mp hu with h' | h'
    · rcases h with ⟨hb, _, _⟩ | ⟨he, _, _⟩
      · exact le_trans (hb u h') hbest
      · rw [he] at h'
        simp at h'
    · simp at h'
      rw [h']
  · rw [if_neg hcond]
    rcases h with ⟨hb, ⟨w, hw, hwt⟩, ⟨w', hw', hwc⟩⟩ | ⟨he, hz, hn⟩
    · refine ⟨?_, ⟨w, by simp [List.mem_append.mpr (Or.inl hw)], hwt⟩,
        ⟨w', by simp [List.mem_append.mpr (Or.inl hw')], hwc⟩⟩
      intro u hu
      rcases List.mem_append.mp hu with h' | h'
      · exact hb u h'
      · simp at h'
        rw [h']
        exact le_of_not_lt (fun hlt => hcond (Or.inl hlt))
    · exfalso
      apply hcond
      rcases lt_or_eq_of_le ht with h' | h'
      · exact Or.inl (by rw [hz]; exact h')
      · exact Or.inr ⟨by rw [hz, h'], by rw [hn]; rfl⟩

/-- The binary fallback only moves `best_concurrency` to the concurrency
of another completed trial, so it preserves the invariant. -/
theorem rampFallback_inv (error_threshold : Rat) (binary : Bool) (s : RampState)
    (h : RampInv s) : RampInv (rampFallback error_threshold binary s) := by
  unfold rampFallback
  split
  · cases hg : s.results.get? (s.results.length - 2) with
    | none => exact h
    | some prev =>
        change RampInv (if prev.error_rate ≤ error_threshold then
          { s with best_concurrency := prev.concurrency } else s)
        split
        · obtain ⟨hb, hex, _⟩ := h
          exact ⟨hb, hex, ⟨prev, List.get?_mem hg, rfl⟩⟩
        · exact h
  · exact h

/-- One full ramp step preserves the invariant (or establishes it from
the initial state). -/
theorem rampStep_inv (error_threshold response_time_threshold : Rat) (binary : Bool)
    (s : RampState) (t : Trial)
    (h : RampInv s ∨ (s.results = [] ∧ s.best_tps = 0 ∧ s.best_avg_response_time = none))
    (ht : 0 ≤ t.tps) :
    RampInv (rampStep error_threshold response_time_threshold binary s t).1 := by
  unfold rampStep
  split_ifs
  · exact rampFallback_inv _ _ _ (rampUpdateBest_inv s t h ht)
  · exact rampUpdateBest_inv s t h ht
  · exact rampUpdateBest_inv s t h ht

/-- The ramp loop preserves the invariant. -/
theorem rampLoop_inv (error_threshold response_time_threshold : Rat) (binary : Bool)
    (oracle : Nat → TrialData) (hpos : ∀ c, 0 ≤ (oracle c).tps) :
    ∀ (seq : List Nat) (s : RampState), RampInv s →
      RampInv (rampLoop error_threshold response_time_threshold binary oracle seq s) := by
  intro seq
  induction seq with
  | nil => exact fun s h => h
  | cons c rest ih =>
      intro s h
      show RampInv (if _ then _ else _)
      split
      · exact ih _ (rampStep_inv _ _ _ _ _ (Or.inl h) (hpos c))
      · exact rampStep_inv _ _ _ _ _ (Or.inl h) (hpos c)

/-- Python `max(results, key=lambda x: x.tps)` (the fold keeping the
first strict maximum) returns an element of the list that dominates
every element. -/
theorem foldl_max_tps (t : Trial) (ts : List Trial) :
    (ts.foldl (fun acc r => if r.tps > acc.tps then r else acc) t) ∈ t :: ts ∧
      ∀ u ∈ t :: ts,
        u.tps ≤ (ts.foldl (fun acc r => if r.tps > acc.tps then r else acc) t).tps := by
  induction ts generalizing t with
  | nil => simp
  | cons a ts ih =>
      rw [List.foldl_cons]
      set acc := if a.tps > t.tps then a else t with hacc
      obtain ⟨hmem, hbound⟩ := ih acc
      have hacc_mem : acc = a ∨ acc = t := by
        rw [hacc]; split
        · exact Or.inl rfl
        · exact Or.inr rfl
      have ht : t.tps ≤ acc.tps := by
        rw [hacc]; split
        · exact le_of_lt (by assumption)
        · exact le_refl _
      have ha : a.tps ≤ acc.tps := by
        rw [hacc]; split
        · exact le_refl _
        · exact le_of_not_lt (by assumption)
      have hacc_fold := hbound acc (List.mem_cons_self _ _)
      constructor
      · rcases List.mem_cons.mp hmem with h | h
        · rcases hacc_mem with h' | h' <;> rw [h] <;> rw [h'] <;> simp
        · simp [h]
      · intro u hu
        rcases List.mem_cons.mp hu with h | h
        · subst h
          exact le_trans ht hacc_fold
        · rcases List.mem_cons.mp h with h' | h'
          · subst h'
            exact le_trans ha hacc_fold
          · exact hbound _ (List.mem_cons_of_mem _ h')

theorem active_after_adjust_ite (b : Prop) [Decidable b] (s : ExecState) (now : Rat) :
    (if b then ConcurrentExecutor.adjust_concurrency s now else s).active_tasks =
      s.active_tasks := by
  split
  · exact adjust_concurrency_active s now
  · rfl

theorem errors_after_adjust_ite (b : Prop) [Decidable b] (s : ExecState) (now : Rat) :
    (if b then ConcurrentExecutor.adjust_concurrency s now else s).task_errors =
        s.task_errors ∧
      (if b then ConcurrentExecutor.adjust_concurrency s now else s).error_types =
        s.error_types ∧
      (if b then ConcurrentExecutor.adjust_concurrency s now else s).successful_tasks =
        s.successful_tasks := by
  split
  · exact adjust_concurrency_errors s now
  · exact ⟨rfl, rfl, rfl⟩

/-- A submit followed by a successfully completed worker wrapper leaves
`active_tasks` one higher than before: `submit` adds one that the
wrapper's own increment/decrement pair never takes back. -/
theorem submit_wrapper_active (s : ExecState) :
    ((ConcurrentExecutor.worker_wrapper (ConcurrentExecutor.submit s) true true "" 0 0).1).active_tasks =
      s.active_tasks + 1 := by
  unfold ConcurrentExecutor.worker_wrapper ConcurrentExecutor.submit
  simp only [Bool.not_true]
  rw [active_after_adjust_ite]
  simp

theorem run_tasks_active (n : Nat) :
    ∀ s : ExecState, (run_tasks s n).active_tasks = s.active_tasks + n := by
  induction n with
  | zero => intro s; simp [run_tasks]
  | succ k ih =>
      intro s
      simp only [run_tasks]
      rw [ih, submit_wrapper_active]
      omega

/-! ## Claim C1 -/

/-- Claim C1 counterexample: with the linear strategy, trial 1 measures
1 tps within both thresholds, and trial 2 measures 10 tps with a 100%
error rate.  The report selects level 2 as `best_concurrency` even
though its trial violates the error threshold, because the best-level
update precedes the threshold check. -/
theorem C1_counterexample :
    (find_max_concurrency 10 exOracle 1 2 1 5 (1/20) 2000 "linear" env0).map
        (fun r => List.lookup "best_concurrency" r) = some (some (.n 2)) ∧
    (find_max_concurrency 10 exOracle 1 2 1 5 (1/20) 2000 "linear" env0).map
        (fun r => List.lookup "detailed_results" r) =
      some (some (.trials [mkTrial 1 (exOracle 1), mkTrial 2 (exOracle 2)])) ∧
    (mkTrial 2 (exOracle 2)).concurrency = 2 ∧
    (mkTrial 2 (exOracle 2)).error_rate > 1/20 := by
  refine ⟨?_, ?_, rfl, ?_⟩ <;> with_unfolding_all decide

/-- Claim C1, amended: the ramp search tracks the highest-tps trial over
ALL executed trials — threshold-violating trials included, since the
best-level update precedes the threshold check — with `best_concurrency`
always the level of some executed trial (under the binary error
fallback, the previous one); and the interrupted report likewise picks
the maximum-tps trial over everything collected, with no threshold
filtering. -/
theorem C1_best_over_all_trials (error_threshold response_time_threshold : Rat)
    (binary : Bool) (oracle : Nat → TrialData) (seq : List Nat) (start : Nat)
    (hpos : ∀ c, 0 ≤ (oracle c).tps) (hne : seq ≠ []) :
    RampInv (rampLoop error_threshold response_time_threshold binary oracle seq
      { results := [], best_tps := 0, best_avg_response_time := none,
        best_concurrency := start }) ∧
    ∀ (results : List Trial) (ty : String) (sv mv : Nat) (env : ReportEnv),
      results ≠ [] →
      ∃ t ∈ results,
        List.lookup "best_value" (generate_interrupted_report results ty sv mv env) =
          some (.n t.concurrency) ∧
        List.lookup "best_tps" (generate_interrupted_report results ty sv mv env) =
          some (.q t.tps) ∧
        ∀ u ∈ results, u.tps ≤ t.tps := by
  constructor
  · cases seq with
    | nil => exact absurd rfl hne
    | cons c rest =>
        have h1 := rampStep_inv error_threshold response_time_threshold binary
          { results := [], best_tps := 0, best_avg_response_time := none,
            best_concurrency := start }
          (mkTrial c (oracle c)) (Or.inr ⟨rfl, rfl, rfl⟩) (hpos c)
        show RampInv (if _ then _ else _)
        split
        · exact rampLoop_inv _ _ _ _ hpos rest _ h1
        · exact h1
  · intro results ty sv mv env hres
    cases results with
    | nil => exact absurd rfl hres
    | cons t ts =>
        obtain ⟨hmem, hbound⟩ := foldl_max_tps t ts
        exact ⟨_, hmem, rfl, rfl, hbound⟩

/-- Witness for the amended C1 theorem at a concrete two-level run. -/
theorem C1_best_over_all_trials_witness :
    (∀ c, 0 ≤ (exOracle c).tps) ∧ ([1, 2] : List Nat) ≠ [] ∧
    (RampInv (rampLoop (1/20) 2000 false exOracle [1, 2]
        { results := [], best_tps := 0, best_avg_response_time := none,
          best_concurrency := 1 }) ∧
      ∀ (results : List Trial) (ty : String) (sv mv : Nat) (env : ReportEnv),
        results ≠ [] →
        ∃ t ∈ results,
          List.lookup "best_value" (generate_interrupted_report results ty sv mv env) =
            some (.n t.concurrency) ∧
          List.lookup "best_tps" (generate_interrupted_report results ty sv mv env) =
            some (.q t.tps) ∧
          ∀ u ∈ results, u.tps ≤ t.tps) := by
  have hpos : ∀ c, 0 ≤ (exOracle c).tps := by
    intro c
    unfold exOracle
    split <;> norm_num
  exact ⟨hpos, by decide,
    C1_best_over_all_trials (1/20) 2000 false exOracle [1, 2] 1 hpos (by decide)⟩

/-! ## Claim C2 -/

/-- Claim C2: after N submitted tasks all of whose worker wrappers run to
completion, `active_tasks` equals N (not 0) — `submit` and the wrapper
each increment it but only one decrement happens — so the
`wait_completion` polling loop, which exits only when `active_tasks` is
0, never observes its exit condition. -/
theorem C2_wait_completion_never_returns (max_workers : Int) (has_rl : Bool)
    (t0 : Rat) (N : Nat) (hN : 1 ≤ N) :
    (run_tasks (ConcurrentExecutor.init max_workers has_rl t0) N).active_tasks = N ∧
    ConcurrentExecutor.wait_completion_exits
      (run_tasks (ConcurrentExecutor.init max_workers has_rl t0) N) = false := by
  have h := run_tasks_active N (ConcurrentExecutor.init max_workers has_rl t0)
  have h0 : (ConcurrentExecutor.init max_workers has_rl t0).active_tasks = 0 := rfl
  rw [h0, zero_add] at h
  refine ⟨h, ?_⟩
  unfold ConcurrentExecutor.wait_completion_exits
  rw [h]
  simp only [beq_eq_false_iff_ne, ne_eq]
  intro hcontra
  omega

/-- Witness for C2 at N = 3. -/
theorem C2_wait_completion_never_returns_witness :
    (1 : Nat) ≤ 3 ∧
    ((run_tasks (ConcurrentExecutor.init 7 false 0) 3).active_tasks = (3 : Nat) ∧
      ConcurrentExecutor.wait_completion_exits
        (run_tasks (ConcurrentExecutor.init 7 false 0) 3) = false) :=
  ⟨by decide, C2_wait_completion_never_returns 7 false 0 3 (by decide)⟩

/-! ## Claim C3 -/

/-- Claim C3 counterexample: a worker whose rate-limiter wait returns
False raises a generic Exception that the wrapper's own handler counts
as a task failure: `task_errors` becomes 1 (the claim says it stays 0)
and `error_types` records it under "Exception".  The last two conjuncts
show the rejection is ALSO counted by the limiter, so the event is
double-counted rather than counted only as rejected. -/
theorem C3_counterexample :
    ((ConcurrentExecutor.worker_wrapper c3_s0 false true "X" 0 1).1).task_errors = 1 ∧
    ((ConcurrentExecutor.worker_wrapper c3_s0 false true "X" 0 1).1).error_types.lookup
      "Exception" = some 1 ∧
    ((ConcurrentExecutor.worker_wrapper c3_s0 false true "X" 0 1).1).successful_tasks = 0 ∧
    (ConcurrentExecutor.worker_wrapper c3_s0 false true "X" 0 1).2 = false ∧
    ((RateLimiter.wait (RateLimiter.init 1 1 "fixed" none 0) 0 (some 0)).1).rejected_count = 1 ∧
    (RateLimiter.wait (RateLimiter.init 1 1 "fixed" none 0) 0 (some 0)).2.1 = false := by
  refine ⟨?_, ?_, ?_, ?_, ?_, ?_⟩ <;> with_unfolding_all decide

/-- Claim C3, amended: when the attached rate limiter's `wait()` returns
False, the limiter counts the event as rejected AND the worker raises a
generic `Exception` which is counted as a task failure in `task_errors`
and under the type name "Exception" in `error_types`; the task callable
is skipped and `successful_tasks` is unchanged. -/
theorem C3_rate_limit_timeout_is_task_failure (s : ExecState) (fok : Bool)
    (ty : String) (a b : Rat) (rl : RLState) (now : Rat) (timeout : Option Rat)
    (hs : s.has_rate_limiter = true)
    (hw : (RateLimiter.wait rl now timeout).2.1 = false) :
    ((ConcurrentExecutor.worker_wrapper s false fok ty a b).1).task_errors =
      s.task_errors + 1 ∧
    ((ConcurrentExecutor.worker_wrapper s false fok ty a b).1).error_types.lookup
      "Exception" = some (((s.error_types.lookup "Exception").getD 0) + 1) ∧
    ((ConcurrentExecutor.worker_wrapper s false fok ty a b).1).successful_tasks =
      s.successful_tasks ∧
    (ConcurrentExecutor.worker_wrapper s false fok ty a b).2 = false ∧
    ((RateLimiter.wait rl now timeout).1).rejected_count = rl.rejected_count + 1 := by
  unfold ConcurrentExecutor.worker_wrapper
  simp only [hs, Bool.not_false, and_self, if_pos trivial]
  refine ⟨?_, ?_, ?_, by simp, wait_false_rejected rl now timeout hw⟩
  · rw [(errors_after_adjust_ite _ _ _).1]
  · rw [(errors_after_adjust_ite _ _ _).2.1]
    exact lookup_bumpCount s.error_types "Exception"
  · rw [(errors_after_adjust_ite _ _ _).2.2]

/-- Witness for the amended C3 theorem at a concrete state and limiter. -/
theorem C3_rate_limit_timeout_witness :
    c3_s0.has_rate_limiter = true ∧
    (RateLimiter.wait (RateLimiter.init 1 1 "fixed" none 0) 0 (some 0)).2.1 = false ∧
    (((ConcurrentExecutor.worker_wrapper c3_s0 false true "Y" 0 1).1).task_errors =
        c3_s0.task_errors + 1 ∧
      ((ConcurrentExecutor.worker_wrapper c3_s0 false true "Y" 0 1).1).error_types.lookup
        "Exception" = some (((c3_s0.error_types.lookup "Exception").getD 0) + 1) ∧
      ((ConcurrentExecutor.worker_wrapper c3_s0 false true "Y" 0 1).1).successful_tasks =
        c3_s0.successful_tasks ∧
      (ConcurrentExecutor.worker_wrapper c3_s0 false true "Y" 0 1).2 = false ∧
      ((RateLimiter.wait (RateLimiter.init 1 1 "fixed" none 0) 0 (some 0)).1).rejected_count =
        (RateLimiter.init 1 1 "fixed" none 0).rejected_count + 1) :=
  ⟨by decide, by with_unfolding_all decide,
    C3_rate_limit_timeout_is_task_failure c3_s0 true "Y" 0 1
      (RateLimiter.init 1 1 "fixed" none 0) 0 (some 0) (by decide)
      (by with_unfolding_all decide)⟩

/-! ## Claim C4 -/

theorem adjust_resize_bounds (s : ExecState) (now : Rat)
    (h1 : s.min_concurrency ≤ s.max_workers) (h2 : s.max_workers ≤ s.max_concurrency) :
    (ConcurrentExecutor.adjust_resize s now).min_concurrency ≤
        (ConcurrentExecutor.adjust_resize s now).max_workers ∧
      (ConcurrentExecutor.adjust_resize s now).max_workers ≤
        (ConcurrentExecutor.adjust_resize s now).max_concurrency := by
  unfold ConcurrentExecutor.adjust_resize
  repeat' split
  all_goals refine ⟨?_, ?_⟩
  all_goals try dsimp only
  all_goals omega

/-- Claim C4 counterexample: an executor constructed with 10 workers,
driven to a 100% task error rate, then switched to adaptive mode with
bounds [1, 5].  The next controller tick shrinks 10 to 9, leaving
`max_workers = 9` outside `[min_concurrency, max_concurrency] = [1, 5]`:
neither `enable_adaptive_concurrency` nor the tick clamps the current
worker count into the configured bracket. -/
theorem C4_counterexample :
    c4_state.min_concurrency = 1 ∧ c4_state.max_concurrency = 5 ∧
    c4_state.max_workers = 9 ∧ ¬(c4_state.max_workers ≤ c4_state.max_concurrency) := by
  have h2 : failing_task (failing_task (ConcurrentExecutor.init 10 false 0)) =
      { max_workers := 10, has_rate_limiter := false, active_tasks := 0,
        task_times := [1/10, 1/10], task_errors := 2, total_tasks := 2,
        successful_tasks := 0, error_types := [("Exception", 2)],
        adaptive_concurrency := false, target_tps := none, min_concurrency := 1,
        max_concurrency := 10, concurrency_adjustment_interval := 2,
        last_adjustment_time := 0, concurrency_history := [(10, 0)],
        error_threshold := 1/20 } := by
    norm_num [failing_task, ConcurrentExecutor.worker_wrapper, ConcurrentExecutor.init,
      bumpCount, List.lookup]
  rw [c4_state, h2]
  norm_num [ConcurrentExecutor.enable_adaptive_concurrency,
    ConcurrentExecutor.adjust_concurrency, ConcurrentExecutor.adjust_resize,
    ConcurrentExecutor.exec_error_rate, ConcurrentExecutor.get_current_tps,
    RateLimiter.pymean]

/-- Claim C4, amended: the bracket `[min_concurrency, max_concurrency]`
is preserved by every controller tick — if the worker count is inside it
before `_adjust_concurrency`, it is inside it afterwards — but it is not
established by `enable_adaptive_concurrency`, so states entering adaptive
mode outside the bracket can stay outside it after a tick. -/
theorem C4_bounds_preserved (s : ExecState) (now : Rat)
    (h1 : s.min_concurrency ≤ s.max_workers) (h2 : s.max_workers ≤ s.max_concurrency) :
    (ConcurrentExecutor.adjust_concurrency s now).min_concurrency ≤
        (ConcurrentExecutor.adjust_concurrency s now).max_workers ∧
      (ConcurrentExecutor.adjust_concurrency s now).max_workers ≤
        (ConcurrentExecutor.adjust_concurrency s now).max_concurrency := by
  unfold ConcurrentExecutor.adjust_concurrency
  split_ifs
  · exact ⟨h1, h2⟩
  · exact ⟨h1, h2⟩
  · exact adjust_resize_bounds s now h1 h2
  · exact adjust_resize_bounds s now h1 h2

/-- Witness for the amended C4 theorem at a concrete in-bracket state. -/
theorem C4_bounds_preserved_witness :
    (ConcurrentExecutor.init 5 false 0).min_concurrency ≤
      (ConcurrentExecutor.init 5 false 0).max_workers ∧
    (ConcurrentExecutor.init 5 false 0).max_workers ≤
      (ConcurrentExecutor.init 5 false 0).max_concurrency ∧
    ((ConcurrentExecutor.adjust_concurrency (ConcurrentExecutor.init 5 false 0) 3).min_concurrency ≤
        (ConcurrentExecutor.adjust_concurrency (ConcurrentExecutor.init 5 false 0) 3).max_workers ∧
      (ConcurrentExecutor.adjust_concurrency (ConcurrentExecutor.init 5 false 0) 3).max_workers ≤
        (ConcurrentExecutor.adjust_concurrency (ConcurrentExecutor.init 5 false 0) 3).max_concurrency) :=
  ⟨by decide, by decide,
    C4_bounds_preserved (ConcurrentExecutor.init 5 false 0) 3 (by decide) (by decide)⟩

/-! ## Claim C5 -/

/-- Claim C5: the claim says `get_stats` returns the rejected count and
p95/p99 wait-time fields.  The effective `get_stats` (the second
definition in the class body, which shadows the first) returns exactly
six fields — none of them the rejected count or a percentile — while the
shadowed first definition does contain all three, showing the claim
matches the dead code, not the reachable one. -/
theorem C5_get_stats_fields (s : RLState) (now : Rat) :
    (RateLimiter.get_stats s now).map Prod.fst =
      ["total_requests", "total_time", "average_tps", "current_tps",
       "configured_rate", "mode"] ∧
    (RateLimiter.get_stats s now).lookup "rejected_requests" = none ∧
    (RateLimiter.get_stats s now).lookup "p95_wait_time_ms" = none ∧
    (RateLimiter.get_stats s now).lookup "p99_wait_time_ms" = none ∧
    "rejected_requests" ∈ (RateLimiter.get_stats_first s now).map Prod.fst ∧
    "p95_wait_time_ms" ∈ (RateLimiter.get_stats_first s now).map Prod.fst ∧
    "p99_wait_time_ms" ∈ (RateLimiter.get_stats_first s now).map Prod.fst := by
  refine ⟨rfl, rfl, rfl, rfl, ?_, ?_, ?_⟩ <;> simp [RateLimiter.get_stats_first]

/-! ## Claim C6 -/

/-- Claim C6 counterexample: a completed ramp report and an interrupted
report from concrete runs both lack any `termination_reason` field. -/
theorem C6_counterexample :
    (find_max_concurrency 10 exOracle 1 2 1 5 (1/20) 2000 "linear" env0).map
        (fun r => List.lookup "termination_reason" r) = some none ∧
    List.lookup "termination_reason"
      (generate_interrupted_report [] "concurrency_scaling" 1 2 env0) = none := by
  constructor <;> with_unfolding_all decide

/-- Claim C6, amended: no ramp report carries a termination-reason field.
A `find_max_concurrency` result is either the completed report with its
fixed 15 keys (no `interrupted` key, so threshold-exceeded and
max-level-reached are indistinguishable from the report) or the
interrupted report with its fixed 9 keys including `interrupted = True`;
the `find_max_tps` completed report likewise has no such field. -/
theorem C6_no_termination_reason (fuel : Nat) (oracle : Nat → TrialData)
    (sc mc st : Nat) (d eTh rTh : Rat) (strategy : String) (env : ReportEnv)
    (r : List (String × ReportVal))
    (h : find_max_concurrency fuel oracle sc mc st d eTh rTh strategy env = some r) :
    ((r.map Prod.fst =
        ["test_type", "start_concurrency", "max_concurrency", "best_concurrency",
         "best_tps", "best_avg_response_time", "error_threshold",
         "response_time_threshold", "step", "scaling_strategy", "duration_per_step",
         "detailed_results", "test_id", "start_time", "end_time"] ∧
        r.lookup "interrupted" = none) ∨
      (r.map Prod.fst =
        ["test_type", "start_value", "max_value", "best_value", "best_tps",
         "interrupted", "detailed_results", "test_id", "message"] ∧
        r.lookup "interrupted" = some (.b true))) ∧
    r.lookup "termination_reason" = none ∧
    ∀ (a b : Nat) (bt : Rat) (oart : Option Rat) (e1 e2 : Rat) (st2 : Nat)
      (strat2 : String) (d2 : Rat) (res : List Trial) (env2 : ReportEnv),
      (tps_scaling_report a b bt oart e1 e2 st2 strat2 d2 res env2).lookup
        "termination_reason" = none := by
  unfold find_max_concurrency at h
  split at h
  · obtain rfl : _ = r := Option.some.inj h
    exact ⟨Or.inr ⟨rfl, rfl⟩, rfl, fun _ _ _ _ _ _ _ _ _ _ _ => rfl⟩
  · exact absurd h (by simp)
  · obtain rfl : _ = r := Option.some.inj h
    exact ⟨Or.inl ⟨rfl, rfl⟩, rfl, fun _ _ _ _ _ _ _ _ _ _ _ => rfl⟩

/-- Witness for the amended C6 theorem at a concrete completed run. -/
theorem C6_no_termination_reason_witness :
    ∃ r, find_max_concurrency 10 exOracle 1 2 1 5 (1/20) 2000 "linear" env0 = some r ∧
      (((r.map Prod.fst =
          ["test_type", "start_concurrency", "max_concurrency", "best_concurrency",
           "best_tps", "best_avg_response_time", "error_threshold",
           "response_time_threshold", "step", "scaling_strategy", "duration_per_step",
           "detailed_results", "test_id", "start_time", "end_time"] ∧
          r.lookup "interrupted" = none) ∨
        (r.map Prod.fst =
          ["test_type", "start_value", "max_value", "best_value", "best_tps",
           "interrupted", "detailed_results", "test_id", "message"] ∧
          r.lookup "interrupted" = some (.b true))) ∧
      r.lookup "termination_reason" = none ∧
      ∀ (a b : Nat) (bt : Rat) (oart : Option Rat) (e1 e2 : Rat) (st2 : Nat)
        (strat2 : String) (d2 : Rat) (res : List Trial) (env2 : ReportEnv),
        (tps_scaling_report a b bt oart e1 e2 st2 strat2 d2 res env2).lookup
          "termination_reason" = none) := by
  refine ⟨_, rfl, C6_no_termination_reason 10 exOracle 1 2 1 5 (1/20) 2000 "linear"
    env0 _ rfl⟩

/-! ## Claim C7 -/

/-- Claim C7 counterexample: calling `find_max_concurrency` with the
unsupported strategy "bogus" does not raise to the caller: the
ValueError is caught by the blanket `except Exception` handler and the
caller receives a structured interrupted report with
`interrupted = True`. -/
theorem C7_counterexample :
    find_max_concurrency 10 exOracle 1 10 1 5 (1/20) 2000 "bogus" env0 =
      some (generate_interrupted_report [] "concurrency_scaling" 1 10 env0) ∧
    (find_max_concurrency 10 exOracle 1 10 1 5 (1/20) 2000 "bogus" env0).map
        (fun r => List.lookup "interrupted" r) = some (some (.b true)) := by
  constructor
  · unfold find_max_concurrency generate_sequence
    simp
  · unfold find_max_concurrency generate_sequence
    simp [generate_interrupted_report, List.lookup]

/-- Claim C7, amended: an invalid strategy name raises ValueError inside
the `try` block, where the generic `except Exception` handler converts
it into the interrupted report (with no trials run), so the caller gets
a structured report rather than a raised validation error. -/
theorem C7_invalid_strategy_returns_report (fuel : Nat) (oracle : Nat → TrialData)
    (sc mc st : Nat) (d eTh rTh : Rat) (strategy : String) (env : ReportEnv)
    (h1 : strategy ≠ "linear") (h2 : strategy ≠ "exponential") (h3 : strategy ≠ "binary") :
    find_max_concurrency fuel oracle sc mc st d eTh rTh strategy env =
      some (generate_interrupted_report [] "concurrency_scaling" sc mc env) := by
  unfold find_max_concurrency generate_sequence
  simp [h1, h2, h3]

/-- Witness for the amended C7 theorem at a concrete invalid strategy. -/
theorem C7_invalid_strategy_witness :
    ("bogus2" : String) ≠ "linear" ∧ ("bogus2" : String) ≠ "exponential" ∧
    ("bogus2" : String) ≠ "binary" ∧
    find_max_concurrency 3 exOracle 2 7 1 5 0 1000 "bogus2" env0 =
      some (generate_interrupted_report [] "concurrency_scaling" 2 7 env0) :=
  ⟨by decide, by decide, by decide,
    C7_invalid_strategy_returns_report 3 exOracle 2 7 1 5 0 1000 "bogus2" env0
      (by decide) (by decide) (by decide)⟩

/-! ## Claim C8 -/

theorem add_tokens_tokens_le (s : RLState) (now : Rat) (h : s.tokens ≤ s.capacity) :
    (RateLimiter.add_tokens s now).tokens ≤ (RateLimiter.add_tokens s now).capacity := by
  unfold RateLimiter.add_tokens
  split
  · exact min_le_left _ _
  · exact h

theorem add_tokens_tokens_le_of (s : RLState) (now : Rat)
    (h : s.last_token_time < now ∨ s.tokens ≤ s.capacity) :
    (RateLimiter.add_tokens s now).tokens ≤ (RateLimiter.add_tokens s now).capacity := by
  unfold RateLimiter.add_tokens
  split_ifs with hc
  · exact min_le_left _ _
  · rcases h with hlt | hle
    · exact absurd (show (0:Rat) < now - s.last_token_time by linarith) hc
    · exact hle

/-- Claim C8 counterexample: a fresh full token bucket at rate 10 whose
rate is lowered to 5 at zero elapsed time: `update_rate` sets
`capacity := 5` but the `_add_tokens` it calls is a no-op when no time
has passed, leaving `tokens = 10 > capacity = 5`. -/
theorem C8_counterexample :
    c8_s1.tokens = 10 ∧ c8_s1.capacity = 5 ∧ c8_s1.capacity < c8_s1.tokens := by
  refine ⟨?_, ?_, ?_⟩ <;> with_unfolding_all decide

/-- Claim C8, amended: `tokens ≤ capacity` holds after construction and
is preserved by `_add_tokens` and by `wait` for all elapsed times and
timeouts; `update_rate` preserves it only when time has elapsed since
the last refill or the new rate is at least the current token count — a
rate lowered below the current tokens at zero elapsed time violates it. -/
theorem C8_tokens_le_capacity (rate : Int) (tu : Rat) (mode : String)
    (burst : Option Int) (t0 : Rat) (s : RLState) (now : Rat) (timeout : Option Rat)
    (new_rate : Int) (h : s.tokens ≤ s.capacity) :
    (RateLimiter.init rate tu mode burst t0).tokens ≤
      (RateLimiter.init rate tu mode burst t0).capacity ∧
    (RateLimiter.add_tokens s now).tokens ≤ (RateLimiter.add_tokens s now).capacity ∧
    ((RateLimiter.wait s now timeout).1).tokens ≤
      ((RateLimiter.wait s now timeout).1).capacity ∧
    (s.last_token_time < now ∨ s.tokens ≤ (new_rate : Rat) →
      (RateLimiter.update_rate s new_rate now).tokens ≤
        (RateLimiter.update_rate s new_rate now).capacity) := by
  refine ⟨le_refl _, add_tokens_tokens_le s now h, ?_, ?_⟩
  · unfold RateLimiter.wait
    split_ifs with h1 h2
    · unfold RateLimiter.wait_fixed
      split_ifs with h3 h4
      · exact h
      · rw [(record_request_fields _ _ _).1, (record_request_fields _ _ _).2.1]
        exact h
      · rw [(record_request_fields _ _ _).1, (record_request_fields _ _ _).2.1]
        exact h
    · unfold RateLimiter.wait_token_bucket
      split_ifs with h3 h4
      · exact add_tokens_tokens_le s now h
      · rw [(record_request_fields _ _ _).1, (record_request_fields _ _ _).2.1]
        have h5 := add_tokens_tokens_le (RateLimiter.add_tokens s now)
          (now + RateLimiter.token_wait_time (RateLimiter.add_tokens s now))
          (add_tokens_tokens_le s now h)
        show (RateLimiter.add_tokens (RateLimiter.add_tokens s now) _).tokens - 1 ≤ _
        linarith
      · rw [(record_request_fields _ _ _).1, (record_request_fields _ _ _).2.1]
        have h5 := add_tokens_tokens_le s now h
        show (RateLimiter.add_tokens s now).tokens - 1 ≤ _
        linarith
    · rw [(record_request_fields _ _ _).1, (record_request_fields _ _ _).2.1]
      exact h
  · intro hdisj
    unfold RateLimiter.update_rate
    apply add_tokens_tokens_le_of
    rcases hdisj with hlt | hle
    · exact Or.inl hlt
    · exact Or.inr hle

/-- Witness for the amended C8 theorem at a concrete bucket. -/
theorem C8_tokens_le_capacity_witness :
    c8_s0.tokens ≤ c8_s0.capacity ∧
    ((RateLimiter.init 10 1 "token_bucket" none 0).tokens ≤
        (RateLimiter.init 10 1 "token_bucket" none 0).capacity ∧
      (RateLimiter.add_tokens c8_s0 1).tokens ≤ (RateLimiter.add_tokens c8_s0 1).capacity ∧
      ((RateLimiter.wait c8_s0 1 none).1).tokens ≤
        ((RateLimiter.wait c8_s0 1 none).1).capacity ∧
      (c8_s0.last_token_time < 1 ∨ c8_s0.tokens ≤ ((5 : Int) : Rat) →
        (RateLimiter.update_rate c8_s0 5 1).tokens ≤
          (RateLimiter.update_rate c8_s0 5 1).capacity)) :=
  ⟨by with_unfolding_all decide,
    C8_tokens_le_capacity 10 1 "token_bucket" none 0 c8_s0 1 none 5
      (by with_unfolding_all decide)⟩

/-! ## Claim C9 -/

/-- Claim C9: for a nonempty sample list and any percentile p,
`_calculate_percentile` returns `sorted(samples)[i]` at
`i = floor(n * p / 100)` clamped to at most `n - 1`, and that index is
in bounds. -/
theorem C9_calculate_percentile (data : List Rat) (p : Nat) (h : data ≠ []) :
    RateLimiter.calculate_percentile data p =
      (data.mergeSort (fun a b => decide (a ≤ b))).getD
        (min (data.length * p / 100) (data.length - 1)) 0 ∧
    min (data.length * p / 100) (data.length - 1) < data.length := by
  have hn : 0 < data.length := List.length_pos.mpr h
  have hne : data.isEmpty = false := by simpa [List.isEmpty_iff] using h
  constructor
  · unfold RateLimiter.calculate_percentile
    rw [if_neg (by simp [hne])]
    rw [insertionSort_eq_mergeSort]
    simp only [List.length_mergeSort]
    congr 1
    split_ifs with hi <;> omega
  · omega

/-- Witness for the C9 theorem at a concrete sample list. -/
theorem C9_calculate_percentile_witness :
    ([3, 1, 2] : List Rat) ≠ [] ∧
    (RateLimiter.calculate_percentile [3, 1, 2] 95 =
        (([3, 1, 2] : List Rat).mergeSort (fun a b => decide (a ≤ b))).getD
          (min (([3, 1, 2] : List Rat).length * 95 / 100)
            (([3, 1, 2] : List Rat).length - 1)) 0 ∧
      min (([3, 1, 2] : List Rat).length * 95 / 100)
        (([3, 1, 2] : List Rat).length - 1) < ([3, 1, 2] : List Rat).length) :=
  ⟨by decide, C9_calculate_percentile [3, 1, 2] 95 (by decide)⟩

/-! ## Claim C10 -/

/-- Claim C10: for 0 ≤ start ≤ end, `_generate_binary_search_sequence`
terminates exactly when start ≥ 1 or start = end; with start = 0 and
end > 0 the doubling step `current = min(current*2, end)` leaves
`current` stuck at 0 forever, so no fuel budget completes the loop. -/
theorem C10_binary_sequence_termination (start end_value : Nat)
    (h : start ≤ end_value) :
    (∃ fuel, (generate_binary_search_sequence fuel start end_value).isSome) ↔
      (1 ≤ start ∨ start = end_value) := by
  constructor
  · rintro ⟨fuel, hf⟩
    by_contra hcon
    push_neg at hcon
    obtain ⟨h1, h2⟩ := hcon
    have hs : start = 0 := by omega
    have he : 0 < end_value := by omega
    subst hs
    unfold generate_binary_search_sequence at hf
    rw [if_neg h2, binary_loop_stuck end_value he fuel _] at hf
    simp at hf
  · intro hc
    by_cases hse : start = end_value
    · exact ⟨0, by simp [generate_binary_search_sequence, hse]⟩
    · rcases hc with h1 | h1
      · refine ⟨end_value, ?_⟩
        unfold generate_binary_search_sequence
        rw [if_neg hse]
        have hterm := binary_loop_terminates end_value end_value start
          [start, (start + end_value) / 2, end_value] h1 (by omega)
        cases hres : binary_search_loop end_value end_value start
            [start, (start + end_value) / 2, end_value] with
        | none => rw [hres] at hterm; simp at hterm
        | some seq => simp
      · exact absurd h1 hse

/-- Witness for the C10 theorem at start 2, end 5. -/
theorem C10_binary_sequence_termination_witness :
    (2 : Nat) ≤ 5 ∧
    ((∃ fuel, (generate_binary_search_sequence fuel 2 5).isSome) ↔
      (1 ≤ (2 : Nat) ∨ (2 : Nat) = 5)) :=
  ⟨by decide, C10_binary_sequence_termination 2 5 (by decide)⟩

end APITester
